import Mathlib

set_option maxRecDepth 8192

/- Shallow embedding of the RAG micro-service in src/main.py and
   src/rag_demo_fastapi.py. Python strings are modelled through their
   character lists, so that every string operation is structurally
   recursive and reduces in the kernel. -/

/-- Models the Python str.lower method, character by character. -/
def pyLower (s : String) : String := ⟨s.data.map Char.toLower⟩

/-- The whitespace characters removed by the Python str.strip method
on ASCII text. -/
def pyIsSpace (c : Char) : Bool :=
  c == ' ' || c == '\t' || c == '\n' || c == '\r' || c == '\x0b' || c == '\x0c'

/-- Models the Python str.strip method: whitespace removed at both ends. -/
def pyStrip (s : String) : String :=
  ⟨((s.data.dropWhile pyIsSpace).reverse.dropWhile pyIsSpace).reverse⟩

/-- Models the Python str.startswith method. -/
def pyStartsWith (s pre : String) : Bool := List.isPrefixOf pre.data s.data

/-- Models the Python character slice s[:n]. -/
def pySlice (s : String) (n : Nat) : String := ⟨s.data.take n⟩

/-- Models the Python replacement of every newline by a space, the
single-character replace applied to previews at src/main.py line 161. -/
def pyReplaceNl (s : String) : String :=
  ⟨s.data.map fun c => if c == '\n' then ' ' else c⟩

/-- A LangChain Document as the service uses it: the page content together
with the source field of its metadata, absent when the metadata carries no
source key. -/
structure Doc where
  page_content : String
  source : Option String
deriving DecidableEq

/-- Models the metadata.get lookup of the source key with the default
label, src/main.py lines 149 and 159. -/
def label (d : Doc) : String := d.source.getD ("unknown")

/-- The sentinel answer text of the service. -/
def dontKnowText : String := "I don\x27t know."

/-- The lowercase text whose occurrence at the start of an answer marks a
non-answer, src/main.py line 146. -/
def dontKnowLow : String := "i don\x27t know"

/-- Models gpt4_chat, src/main.py lines 102 to 115. The awaited backend
call is passed in as an Except value: a returned response is stripped, a
raised exception is caught and mapped to the sentinel text. -/
def gpt4_chat (response : Except String String) : String :=
  match response with
  | Except.ok r => pyStrip r
  | Except.error _ => dontKnowText

/-- The JSON body returned by the rag handler. -/
structure RagResponse where
  question : String
  answer : String
  sources : List String
deriving DecidableEq

/-- Models the sentinel-response helper, src/main.py lines 120 to 121. -/
def sentinel (q : String) : RagResponse := ⟨q, dontKnowText, []⟩

/-- The instruction head of the grounding prompt, src/main.py lines 138
to 141. -/
def promptInstr : String :=
  "You are a helpful assistant. Read the context and answer the question. List all relevant facts you find. If the answer is not contained, reply that you don\x27t know.\n\nContext:\n"

/-- The question marker of the grounding prompt. -/
def promptQuestion : String := "\n\nQuestion: "

/-- The answer marker of the grounding prompt. -/
def promptAnswer : String := "\nAnswer:"

/-- The blank-line separator joining retrieved chunks, src/main.py
line 136. -/
def blankSep : String := "\n\n"

/-- Models the composed rag prompt, src/main.py lines 138 to 142. -/
def ragPrompt (context question : String) : String :=
  promptInstr ++ context ++ promptQuestion ++ question ++ promptAnswer

/-- The context block joined from the retrieved chunks, src/main.py
line 136. -/
def ragContext (docs : List Doc) : String :=
  String.intercalate blankSep (docs.map fun x => x.page_content)

/-- The post-processing check of src/main.py line 146: the answer starts,
lowercased, with the dont-know text, or is empty after stripping. -/
def isNonAnswer (answer : String) : Bool :=
  pyStartsWith (pyLower answer) dontKnowLow || pyStrip answer == ("")

/-- The rag handler body once retrieval has returned the non-empty chunk
list docs, src/main.py lines 136 to 150. The second component records the
prompt dispatched to the backend. -/
def ragWithDocs (backend : String → Except String String) (question : String)
    (docs : List Doc) : RagResponse × List String :=
  let prompt := ragPrompt (ragContext docs) question
  let answer := gpt4_chat (backend prompt)
  cond (isNonAnswer answer)
    (sentinel question, [prompt])
    (⟨question, answer, (docs.map label).dedup⟩, [prompt])

/-- Models the rag handler, src/main.py lines 130 to 150, parameterized by
the retriever and by the backend outcome for each prompt. The second
component lists the prompts dispatched to the backend, making the absence
of a backend call observable. -/
def ragTrace (retriever : String → List Doc)
    (backend : String → Except String String) (question : String) :
    RagResponse × List String :=
  match retriever question with
  | [] => (sentinel question, [])
  | d :: ds => ragWithDocs backend question (d :: ds)

/-- The response body of the rag handler. -/
def rag (retriever : String → List Doc)
    (backend : String → Except String String) (question : String) :
    RagResponse :=
  (ragTrace retriever backend question).1

/-- The JSON body returned by the generate handler. -/
structure GenResponse where
  prompt : String
  completion : String
deriving DecidableEq

/-- Models the generate handler, src/main.py lines 124 to 127. -/
def generate (backend : String → Except String String) (prompt : String) :
    GenResponse :=
  ⟨prompt, gpt4_chat (backend prompt)⟩

/-- An entry of the docs list of the ingested_docs response. -/
structure DocEntry where
  id : Nat
  source : String
  chars : Nat
  preview : String
deriving DecidableEq

/-- The JSON body returned by the ingested_docs handler. -/
structure IngestedResponse where
  total : Nat
  shown : Nat
  docs : List DocEntry
deriving DecidableEq

/-- The truncation marker appended to long previews. -/
def ellipsisText : String := "…"

/-- The preview built at src/main.py line 161: the first 160 characters,
each newline replaced by a space, then the marker exactly when the content
is longer than 160 characters. -/
def previewOf (content : String) : String :=
  pyReplaceNl (pySlice content 160) ++
    (if 160 < content.length then ellipsisText else (""))

/-- Models the ingested_docs handler, src/main.py lines 153 to 163. -/
def ingested_docs (raw_docs : List Doc) (limit : Nat) : IngestedResponse :=
  let out := (raw_docs.take limit).enum.map fun p =>
    DocEntry.mk p.1 (label p.2) p.2.page_content.length (previewOf p.2.page_content)
  ⟨raw_docs.length, out.length, out⟩

/-- The recognized plain-text extensions, src/main.py line 56. -/
def TEXT_SUFFIXES : List String := [".txt", ".md", ".rst", ".log", ".csv"]

/-- A loader value selected for a file, mirroring the two loader classes
the code constructs. -/
inductive Loader where
  | pdfLoader (path : String)
  | textLoader (path : String)
deriving DecidableEq

/-- The final component of a path, as the name attribute of a pathlib
path. -/
def pathName (p : String) : String :=
  ⟨(p.data.reverse.takeWhile fun c => c != '/').reverse⟩

/-- Models the suffix attribute of a pathlib path: the extension from the
final dot of the name, empty when the name has no dot, when its only dot is
leading, or when the dot is last. -/
def path_suffix (p : String) : String :=
  let name := (pathName p).data
  match ((name.enum.filter fun ic => ic.2 == '.').map fun ic => ic.1).getLast? with
  | none => ""
  | some i => if 0 < i ∧ i + 1 < name.length then ⟨name.drop i⟩ else ""

/-- Models loader_for, src/main.py lines 58 to 63: a pdf suffix selects the
pdf loader, a recognized text suffix the text loader, anything else none. -/
def loader_for (p : String) : Option Loader :=
  if pyLower (path_suffix p) == (".pdf") then some (Loader.pdfLoader p)
  else if TEXT_SUFFIXES.contains (pyLower (path_suffix p)) then
    some (Loader.textLoader p)
  else none

/-- The file-system view the loader runs against: whether the corpus root
exists, the recursive file listing beneath it, and the readable content of
each path, with none standing for a path that cannot be opened. -/
structure FS where
  dirExists : Bool
  files : List String
  content : String → Option String

/-- The empty path, which never names an openable file. -/
def emptyPath : String := ""

/-- The per-file loader selection lambda at src/main.py line 76: a none
from loader_for is replaced by a text loader for the empty path. -/
def loaderOrDefault (p : String) : Loader :=
  (loader_for p).getD (Loader.textLoader emptyPath)

/-- Modelled from the LangChain loader contract the code relies on: a
loader opens its own configured path and yields documents whose source
metadata is that path; an unopenable path raises, modelled as an error.
Page structure of pdf files is abstracted to their concatenated text. -/
def runLoader (fs : FS) (l : Loader) : Except String (List Doc) :=
  match l with
  | Loader.textLoader p =>
    match fs.content p with
    | some s => Except.ok [⟨s, some p⟩]
    | none => Except.error p
  | Loader.pdfLoader p =>
    match fs.content p with
    | some s => Except.ok [⟨s, some p⟩]
    | none => Except.error p

/-- Modelled from the LangChain DirectoryLoader contract with silent_errors
left at its False default, as src/main.py lines 73 to 79 leave it: every
listed file is loaded with the configured loader class, and a loader
exception aborts the whole load. -/
def directoryLoad (fs : FS) : List String → Except String (List Doc)
  | [] => Except.ok []
  | p :: rest =>
    match runLoader fs (loaderOrDefault p) with
    | Except.error e => Except.error e
    | Except.ok ds =>
      match directoryLoad fs rest with
      | Except.error e => Except.error e
      | Except.ok more => Except.ok (ds ++ more)

/-- The fallback document content at src/main.py line 70. -/
def fallbackText : String :=
  "This is a fallback document. Add PDFs or TXT files to ./docs to improve answers."

/-- The source label of the fallback document. -/
def fallbackLabel : String := "fallback"

/-- The fallback document built when the corpus root is missing,
src/main.py lines 69 to 71. -/
def fallbackDoc : Doc := ⟨fallbackText, some fallbackLabel⟩

/-- Models load_documents, src/main.py lines 66 to 81. -/
def load_documents (fs : FS) : Except String (List Doc) :=
  cond fs.dirExists (directoryLoad fs fs.files) (Except.ok [fallbackDoc])

/-- True when a load ended in an uncaught exception. -/
def loadFailed (r : Except String (List Doc)) : Bool :=
  match r with
  | Except.error _ => true
  | Except.ok _ => false

/-- Modelled from the spec, section 4.3: similarity scoring by inner
product of numeric vectors; the index query code lives in FAISS, outside
src. -/
def dotProduct (a b : List Int) : Int :=
  (a.zip b).foldl (fun acc p => acc + p.1 * p.2) 0

/-- Stable insertion into a list sorted by descending score. -/
def insertDesc (x : Doc × Int) : List (Doc × Int) → List (Doc × Int)
  | [] => [x]
  | y :: ys => if y.2 < x.2 then x :: y :: ys else y :: insertDesc x ys

/-- Stable descending sort by score. -/
def sortDesc : List (Doc × Int) → List (Doc × Int)
  | [] => []
  | x :: xs => insertDesc x (sortDesc xs)

/-- Modelled from the spec, section 4.3: query embeds the text with the
configured embedding function, scores every indexed chunk, ranks by
descending similarity and keeps the first k. -/
def query (index : List (Doc × List Int)) (embed : String → List Int)
    (text : String) (k : Nat) : List (Doc × Int) :=
  (sortDesc (index.map fun cv => (cv.1, dotProduct (embed text) cv.2))).take k

/-- The configured retrieval depth, src/main.py line 48. -/
def K : Nat := 8

/-- Modelled from the spec, section 4.4: retrieve is pure delegation to
query with the configured k. -/
def retrieve (index : List (Doc × List Int)) (embed : String → List Int)
    (question : String) : List Doc :=
  (query index embed question K).map fun sc => sc.1

namespace RagDemoFastapi

/-- Models gpt4_chat of src/rag_demo_fastapi.py lines 92 to 105. -/
def gpt4_chat (response : Except String String) : String :=
  match response with
  | Except.ok r => pyStrip r
  | Except.error _ => dontKnowText

/-- Models the sentinel-response helper of src/rag_demo_fastapi.py lines
109 to 110. -/
def sentinel (q : String) : RagResponse := ⟨q, dontKnowText, []⟩

/-- The context block of src/rag_demo_fastapi.py line 126. -/
def ragContext (docs : List Doc) : String :=
  String.intercalate blankSep (docs.map fun x => x.page_content)

/-- The non-answer check of src/rag_demo_fastapi.py line 136. -/
def isNonAnswer (answer : String) : Bool :=
  pyStartsWith (pyLower answer) dontKnowLow || pyStrip answer == ("")

/-- The rag handler body of src/rag_demo_fastapi.py lines 126 to 140 once
retrieval has returned docs. -/
def ragWithDocs (backend : String → Except String String) (question : String)
    (docs : List Doc) : RagResponse × List String :=
  let prompt := ragPrompt (ragContext docs) question
  let answer := gpt4_chat (backend prompt)
  cond (isNonAnswer answer)
    (sentinel question, [prompt])
    (⟨question, answer, (docs.map label).dedup⟩, [prompt])

/-- Models the rag handler of src/rag_demo_fastapi.py lines 119 to 140; the
retriever held on the application state is the retriever parameter. -/
def ragTrace (retriever : String → List Doc)
    (backend : String → Except String String) (question : String) :
    RagResponse × List String :=
  match retriever question with
  | [] => (sentinel question, [])
  | d :: ds => ragWithDocs backend question (d :: ds)

/-- The response body of the rag handler of src/rag_demo_fastapi.py. -/
def rag (retriever : String → List Doc)
    (backend : String → Except String String) (question : String) :
    RagResponse :=
  (ragTrace retriever backend question).1

/-- Models the generate handler of src/rag_demo_fastapi.py lines 113 to
116. -/
def generate (backend : String → Except String String) (prompt : String) :
    GenResponse :=
  ⟨prompt, gpt4_chat (backend prompt)⟩

/-- The preview of src/rag_demo_fastapi.py line 153. -/
def previewOf (content : String) : String :=
  pyReplaceNl (pySlice content 160) ++
    (if 160 < content.length then ellipsisText else (""))

/-- Models the ingested_docs handler of src/rag_demo_fastapi.py lines 143
to 155; the document list held on the application state is the raw_docs
parameter. -/
def ingested_docs (raw_docs : List Doc) (limit : Nat) : IngestedResponse :=
  let out := (raw_docs.take limit).enum.map fun p =>
    DocEntry.mk p.1 (label p.2) p.2.page_content.length (previewOf p.2.page_content)
  ⟨raw_docs.length, out.length, out⟩

end RagDemoFastapi

/-- Concrete retriever used by witnesses: one document from a.txt. -/
def skyDoc : Doc := ⟨"The sky is blue.", some ("a.txt")⟩

/-- Concrete retriever used by witnesses. -/
def skyRetriever : String → List Doc := fun _ => [skyDoc]

/-- Concrete backend used by witnesses: always answers with content. -/
def skyBackend : String → Except String String :=
  fun _ => Except.ok ("The sky is blue.")

lemma isNonAnswer_of_strip {ans : String} (h : pyStrip ans = ("")) :
    isNonAnswer ans = true := by
  unfold isNonAnswer
  rw [h]
  simp

lemma isNonAnswer_of_starts {ans : String}
    (h : pyStartsWith (pyLower ans) dontKnowLow = true) :
    isNonAnswer ans = true := by
  unfold isNonAnswer
  rw [h]
  simp

lemma isNonAnswer_dontKnow : isNonAnswer dontKnowText = true := by decide

lemma ragTrace_nil (retriever : String → List Doc)
    (backend : String → Except String String) (question : String)
    (h : retriever question = []) :
    ragTrace retriever backend question = (sentinel question, []) := by
  unfold ragTrace
  rw [h]

lemma ragTrace_cons (retriever : String → List Doc)
    (backend : String → Except String String) (question : String)
    (c : Doc) (cs : List Doc) (h : retriever question = c :: cs) :
    ragTrace retriever backend question = ragWithDocs backend question (c :: cs) := by
  unfold ragTrace
  rw [h]

lemma ragWithDocs_true (backend : String → Except String String)
    (question : String) (docs : List Doc)
    (h : isNonAnswer (gpt4_chat (backend (ragPrompt (ragContext docs) question))) = true) :
    (ragWithDocs backend question docs).1 = sentinel question := by
  simp only [ragWithDocs]
  rw [h]
  rfl

lemma ragWithDocs_false (backend : String → Except String String)
    (question : String) (docs : List Doc)
    (h : isNonAnswer (gpt4_chat (backend (ragPrompt (ragContext docs) question))) = false) :
    (ragWithDocs backend question docs).1 =
      ⟨question, gpt4_chat (backend (ragPrompt (ragContext docs) question)),
        (docs.map label).dedup⟩ := by
  simp only [ragWithDocs]
  rw [h]
  rfl

/-- Claim C1: when retrieval returns no chunks, the rag handler returns
exactly the sentinel body and dispatches no prompt to the backend. -/
theorem rag_empty_retrieval_short_circuit (retriever : String → List Doc)
    (backend : String → Except String String) (question : String)
    (h : retriever question = []) :
    ragTrace retriever backend question = (⟨question, dontKnowText, []⟩, []) :=
  ragTrace_nil retriever backend question h

/-- Witness for claim C1 at a retriever that finds nothing. -/
theorem rag_empty_retrieval_short_circuit_witness :
    ragTrace (fun _ => []) (fun _ => Except.error ("boom")) ("q") =
      (⟨("q"), dontKnowText, []⟩, []) :=
  rag_empty_retrieval_short_circuit (fun _ => [])
    (fun _ => Except.error ("boom")) ("q") rfl

/-- Claim C2: with non-empty retrieval, a backend answer that is empty
after stripping or that starts, lowercased, with the dont-know text makes
the rag handler return the sentinel body with empty sources, whatever the
retrieved chunks were. -/
theorem rag_non_answer_returns_sentinel (retriever : String → List Doc)
    (backend : String → Except String String) (question : String)
    (h1 : retriever question ≠ [])
    (h2 : pyStrip (gpt4_chat (backend
        (ragPrompt (ragContext (retriever question)) question))) = ("") ∨
      pyStartsWith (pyLower (gpt4_chat (backend
        (ragPrompt (ragContext (retriever question)) question)))) dontKnowLow = true) :
    rag retriever backend question = ⟨question, dontKnowText, []⟩ := by
  cases hd : retriever question with
  | nil => exact absurd hd h1
  | cons c cs =>
    rw [hd] at h2
    have h3 : isNonAnswer (gpt4_chat (backend
        (ragPrompt (ragContext (c :: cs)) question))) = true := by
      rcases h2 with h | h
      · exact isNonAnswer_of_strip h
      · exact isNonAnswer_of_starts h
    unfold rag
    rw [ragTrace_cons retriever backend question c cs hd,
      ragWithDocs_true backend question (c :: cs) h3]
    rfl

/-- Witness for claim C2 at a backend whose answer strips to nothing. -/
theorem rag_non_answer_returns_sentinel_witness :
    rag skyRetriever (fun _ => Except.ok ("  ")) ("q") =
      ⟨("q"), dontKnowText, []⟩ :=
  rag_non_answer_returns_sentinel skyRetriever (fun _ => Except.ok ("  "))
    ("q") (by decide) (Or.inl (by decide))

/-- Claim C3: an exception from the backend is caught inside the chat
wrapper and mapped to the sentinel text, and a rag request whose backend
call fails returns the sentinel body rather than propagating the failure. -/
theorem backend_failure_maps_to_sentinel (retriever : String → List Doc)
    (backend : String → Except String String) (question : String)
    (err : String → String) (hb : ∀ p, backend p = Except.error (err p)) :
    (∀ e, gpt4_chat (Except.error e) = dontKnowText) ∧
    rag retriever backend question = ⟨question, dontKnowText, []⟩ := by
  refine ⟨fun e => rfl, ?_⟩
  cases hd : retriever question with
  | nil =>
    unfold rag
    rw [ragTrace_nil retriever backend question hd]
    rfl
  | cons c cs =>
    have h3 : isNonAnswer (gpt4_chat (backend
        (ragPrompt (ragContext (c :: cs)) question))) = true := by
      rw [hb]
      exact isNonAnswer_dontKnow
    unfold rag
    rw [ragTrace_cons retriever backend question c cs hd,
      ragWithDocs_true backend question (c :: cs) h3]
    rfl

/-- Witness for claim C3 at a backend that always raises. -/
theorem backend_failure_maps_to_sentinel_witness :
    (∀ e, gpt4_chat (Except.error e) = dontKnowText) ∧
    rag skyRetriever (fun _ => Except.error ("boom")) ("q") =
      ⟨("q"), dontKnowText, []⟩ :=
  backend_failure_maps_to_sentinel skyRetriever
    (fun _ => Except.error ("boom")) ("q") (fun _ => ("boom")) (fun _ => rfl)

/-- Concrete file system used by witnesses: a missing corpus root. -/
def missingFS : FS := ⟨false, [], fun _ => none⟩

/-- Claim C4: a missing corpus root yields exactly one fallback document
with fixed content and the fallback source label, and the load does not
fail. -/
theorem load_documents_missing_root_fallback (fs : FS)
    (h : fs.dirExists = false) :
    load_documents fs = Except.ok [fallbackDoc] ∧
    fallbackDoc.page_content = fallbackText ∧
    fallbackDoc.source = some fallbackLabel := by
  refine ⟨?_, rfl, rfl⟩
  unfold load_documents
  rw [h]
  rfl

/-- Witness for claim C4 at a concrete missing root. -/
theorem load_documents_missing_root_fallback_witness :
    load_documents missingFS = Except.ok [fallbackDoc] ∧
    fallbackDoc.page_content = fallbackText ∧
    fallbackDoc.source = some fallbackLabel :=
  load_documents_missing_root_fallback missingFS rfl

/-- A file with an extension the loader does not recognize. -/
def pngFile : String := "image.png"

/-- Concrete file system used by witnesses: an existing corpus root that
holds one unrecognized file, on a file system where the empty path cannot
be opened. -/
def pngFS : FS := ⟨true, [pngFile], fun _ => none⟩

/-- Claim C5 against the code: loader_for does select no loader for an
unrecognized extension, but load_documents replaces the missing loader by a
text loader for the empty path; loading that path raises, so the whole load
fails instead of the file being skipped silently. -/
theorem unsupported_extension_aborts_load (fs : FS)
    (h1 : fs.dirExists = true) (h2 : fs.files = [pngFile])
    (h3 : fs.content emptyPath = none) :
    loader_for pngFile = none ∧
    loaderOrDefault pngFile = Loader.textLoader emptyPath ∧
    loadFailed (load_documents fs) = true := by
  have h4 : loaderOrDefault pngFile = Loader.textLoader emptyPath := by decide
  have h5 : runLoader fs (loaderOrDefault pngFile) = Except.error emptyPath := by
    rw [h4]
    simp only [runLoader]
    rw [h3]
  refine ⟨by decide, h4, ?_⟩
  unfold load_documents
  rw [h1, h2]
  show loadFailed (directoryLoad fs [pngFile]) = true
  simp only [directoryLoad]
  rw [h5]
  rfl

/-- Witness for claim C5 at the concrete file system. -/
theorem unsupported_extension_aborts_load_witness :
    loader_for pngFile = none ∧
    loaderOrDefault pngFile = Loader.textLoader emptyPath ∧
    loadFailed (load_documents pngFS) = true :=
  unsupported_extension_aborts_load pngFS rfl rfl rfl

/-- Claim C6: a non-sentinel rag answer comes with sources holding no
duplicate, each being the label of some retrieved chunk, and the label of
every retrieved chunk occurring. -/
theorem rag_sources_deduplicated (retriever : String → List Doc)
    (backend : String → Except String String) (question : String)
    (h : (rag retriever backend question).answer ≠ dontKnowText) :
    (rag retriever backend question).sources.Nodup ∧
    (∀ s ∈ (rag retriever backend question).sources,
      ∃ d ∈ retriever question, label d = s) ∧
    (∀ d ∈ retriever question,
      label d ∈ (rag retriever backend question).sources) := by
  cases hd : retriever question with
  | nil =>
    exfalso
    apply h
    unfold rag
    rw [ragTrace_nil retriever backend question hd]
    rfl
  | cons c cs =>
    unfold rag at h ⊢

    rw [ragTrace_cons retriever backend question c cs hd] at h ⊢
    cases hna : isNonAnswer (gpt4_chat (backend
        (ragPrompt (ragContext (c :: cs)) question))) with
    | true =>
      rw [ragWithDocs_true backend question (c :: cs) hna] at h
      exact absurd rfl h
    | false =>
      rw [ragWithDocs_false backend question (c :: cs) hna]
      refine ⟨List.nodup_dedup _, ?_, ?_⟩
      · intro s hs
        rw [List.mem_dedup] at hs
        obtain ⟨x, hx, hlx⟩ := List.mem_map.mp hs
        exact ⟨x, hx, hlx⟩
      · intro x hx
        exact List.mem_dedup.mpr (List.mem_map_of_mem label hx)

/-- Witness for claim C6 at a grounded backend answer. -/
theorem rag_sources_deduplicated_witness :
    (rag skyRetriever skyBackend ("q")).sources.Nodup ∧
    (∀ s ∈ (rag skyRetriever skyBackend ("q")).sources,
      ∃ d ∈ skyRetriever ("q"), label d = s) ∧
    (∀ d ∈ skyRetriever ("q"),
      label d ∈ (rag skyRetriever skyBackend ("q")).sources) :=
  rag_sources_deduplicated skyRetriever skyBackend ("q") (by decide)

lemma snd_mem_of_mem_enumFrom {α : Type} :
    ∀ (n : Nat) (l : List α) (x : Nat × α), x ∈ l.enumFrom n → x.2 ∈ l := by
  intro n l
  induction l generalizing n with
  | nil =>
    intro x hx
    simp [List.enumFrom] at hx
  | cons a as ih =>
    intro x hx
    simp only [List.enumFrom, List.mem_cons] at hx
    rcases hx with hx | hx
    · rw [hx]
      exact List.mem_cons_self a as
    · exact List.mem_cons_of_mem a (ih (n + 1) x hx)

lemma snd_mem_of_mem_enum {α : Type} {l : List α} {x : Nat × α}
    (h : x ∈ l.enum) : x.2 ∈ l :=
  snd_mem_of_mem_enumFrom 0 l x h

lemma previewOf_length_le (c : String) : (previewOf c).length ≤ 161 := by
  have h1 : (pyReplaceNl (pySlice c 160)).length ≤ 160 := by
    show ((c.data.take 160).map _).length ≤ 160
    rw [List.length_map, List.length_take]
    exact min_le_left _ _
  have h2 : (if 160 < c.length then ellipsisText else ("")).length ≤ 1 := by
    by_cases hc : 160 < c.length
    · rw [if_pos hc]
      decide
    · rw [if_neg hc]
      decide
  calc (previewOf c).length
      = (pyReplaceNl (pySlice c 160)).length +
        (if 160 < c.length then ellipsisText else ("")).length :=
        String.length_append _ _
    _ ≤ 161 := by omega

/-- Document used by the counterexample against claim C7. -/
def newlineDoc : Doc := ⟨"a\nb", some ("s")⟩

/-- Claim C7 fails on the code: the preview of a short document holding a
newline is not its first 160 characters, because every newline is replaced
by a space. -/
theorem ingested_docs_preview_newline_counterexample :
    (ingested_docs [newlineDoc] 1).docs = [⟨0, ("s"), 3, ("a b")⟩] ∧
    ("a b") ≠ pySlice newlineDoc.page_content 160 := by
  refine ⟨by decide, by decide⟩

/-- Claim C7 as amended: total counts the loaded documents, shown is the
minimum of limit and total, and each preview is the first 160 characters of
the content with every newline replaced by a space, the ellipsis marker
appended exactly when the content is longer than 160 characters, for a
preview length of at most 161. -/
theorem ingested_docs_amended (raw_docs : List Doc) (limit : Nat)
    (h : 1 ≤ limit) :
    (ingested_docs raw_docs limit).total = raw_docs.length ∧
    (ingested_docs raw_docs limit).shown = min limit raw_docs.length ∧
    ∀ e ∈ (ingested_docs raw_docs limit).docs, ∃ d ∈ raw_docs,
      e.chars = d.page_content.length ∧
      e.preview = pyReplaceNl (pySlice d.page_content 160) ++
        (if 160 < d.page_content.length then ellipsisText else ("")) ∧
      e.preview.length ≤ 161 := by
  refine ⟨rfl, ?_, ?_⟩
  · show ((raw_docs.take limit).enum.map _).length = _
    rw [List.length_map, List.enum_length, List.length_take]
  · intro e he
    simp only [ingested_docs] at he
    obtain ⟨p, hp, hpe⟩ := List.mem_map.mp he
    have hd : p.2 ∈ raw_docs :=
      List.take_subset limit raw_docs (snd_mem_of_mem_enum hp)
    refine ⟨p.2, hd, ?_, ?_, ?_⟩
    · rw [← hpe]
    · rw [← hpe]
      rfl
    · rw [← hpe]
      exact previewOf_length_le p.2.page_content

/-- Witness for the amended claim C7 at a one-document corpus. -/
theorem ingested_docs_amended_witness :
    (ingested_docs [newlineDoc] 1).total = [newlineDoc].length ∧
    (ingested_docs [newlineDoc] 1).shown = min 1 [newlineDoc].length ∧
    ∀ e ∈ (ingested_docs [newlineDoc] 1).docs, ∃ d ∈ [newlineDoc],
      e.chars = d.page_content.length ∧
      e.preview = pyReplaceNl (pySlice d.page_content 160) ++
        (if 160 < d.page_content.length then ellipsisText else ("")) ∧
      e.preview.length ≤ 161 :=
  ingested_docs_amended [newlineDoc] 1 (by decide)

/-- Claim C8: retrieval is idempotent and deterministic — two embedding
functions agreeing pointwise, as one deterministic embedding queried twice
does, give the same ranked result from query at every k and from retrieve,
over the same unchanged index and question. -/
theorem query_deterministic (index : List (Doc × List Int))
    (e1 e2 : String → List Int) (question : String)
    (h : ∀ t, e1 t = e2 t) :
    (∀ k, query index e1 question k = query index e2 question k) ∧
    retrieve index e1 question = retrieve index e2 question := by
  have he : e1 = e2 := funext h
  subst he
  exact ⟨fun _ => rfl, rfl⟩

/-- Embedding function used by the witness for claim C8. -/
def unitEmbed : String → List Int := fun _ => [1]

/-- Witness for claim C8 at a one-chunk index. -/
theorem query_deterministic_witness :
    (∀ k, query [(skyDoc, [2])] unitEmbed ("q") k =
      query [(skyDoc, [2])] unitEmbed ("q") k) ∧
    retrieve [(skyDoc, [2])] unitEmbed ("q") =
      retrieve [(skyDoc, [2])] unitEmbed ("q") :=
  query_deterministic [(skyDoc, [2])] unitEmbed unitEmbed ("q") (fun _ => rfl)

/-- Claim C9: the module-state variant of src/main.py and the
lifespan-state variant of src/rag_demo_fastapi.py return the same response
on every request to the three endpoints, given the same retriever, the same
loaded documents and the same backend behavior. -/
theorem variants_observationally_equivalent :
    (∀ (retriever : String → List Doc)
      (backend : String → Except String String) (question : String),
      rag retriever backend question =
        RagDemoFastapi.rag retriever backend question) ∧
    (∀ (backend : String → Except String String) (prompt : String),
      generate backend prompt = RagDemoFastapi.generate backend prompt) ∧
    (∀ (raw_docs : List Doc) (limit : Nat),
      ingested_docs raw_docs limit =
        RagDemoFastapi.ingested_docs raw_docs limit) :=
  ⟨fun _ _ _ => rfl, fun _ _ => rfl, fun _ _ => rfl⟩

/-- Claim C10: a rag response carries empty sources exactly when its answer
is the sentinel text. -/
theorem sources_empty_iff_sentinel (retriever : String → List Doc)
    (backend : String → Except String String) (question : String) :
    (rag retriever backend question).sources = [] ↔
    (rag retriever backend question).answer = dontKnowText := by
  cases hd : retriever question with
  | nil =>
    unfold rag
    rw [ragTrace_nil retriever backend question hd]
    exact ⟨fun _ => rfl, fun _ => rfl⟩
  | cons c cs =>
    unfold rag
    rw [ragTrace_cons retriever backend question c cs hd]
    cases hna : isNonAnswer (gpt4_chat (backend
        (ragPrompt (ragContext (c :: cs)) question))) with
    | true =>
      rw [ragWithDocs_true backend question (c :: cs) hna]
      exact ⟨fun _ => rfl, fun _ => rfl⟩
    | false =>
      rw [ragWithDocs_false backend question (c :: cs) hna]
      constructor
      · intro hsrc
        exfalso
        have hmap : (c :: cs).map label = [] := (List.dedup_eq_nil _).mp hsrc
        simp at hmap
      · intro hans
        exfalso
        have hans2 : gpt4_chat (backend
            (ragPrompt (ragContext (c :: cs)) question)) = dontKnowText := hans
        rw [hans2] at hna
        rw [isNonAnswer_dontKnow] at hna
        exact Bool.noConfusion hna
